import Mathlib

/-!
# gin-logrus: the request-logging middleware of `logger.go`

A shallow embedding of `defaultTransformer`, `Logger` and `LoggerWithConfig`,
followed by the properties proved about them.

Conventions of the embedding

* Go `int` and `time.Duration` values are `Int`; the only arithmetic that can
  leave the 64-bit range is the subtraction inside `time.Time.Sub`, which is
  modelled with its wrap-around and saturation.
* Go maps are association lists with at most one entry per key (`GoMap`).
* `*logrus.Logger` may be `nil` (`LoggerPtr = Option Nat`, the `Nat` being the
  identity of the logger object).  `ctx.Request` and `ctx.Request.URL` are never
  `nil` while gin serves a request and are modelled as plain values.
* The logging backend is a recorder: a call of `Debugf`, `Warnf` or `Errorf` on an
  entry is one emitted `Record`; level thresholds and sinks belong to logrus.
* The handler is run against a `World` (gin context and clock); `ctx.Next()` is the
  function `next : World → World` and is assumed to return.  What the handler does
  is reported as a list of `Event`s.
-/

namespace GinLogrus

/-! ## Go maps -/

/-- A Go `map[string]α`: association list, one entry per key. -/
abbrev GoMap (α : Type) := List (String × α)

/-- Map assignment `m[k] = v`. -/
def GoMap.set {α : Type} : GoMap α → String → α → GoMap α
  | [], k, v => [(k, v)]
  | (k', v') :: rest, k, v =>
    if k' = k then (k, v) :: rest else (k', v') :: GoMap.set rest k v

/-- Map lookup `v, ok := m[k]`; `none` is `ok = false`. A nil map is `[]`. -/
def GoMap.get? {α : Type} : GoMap α → String → Option α
  | [], _ => none
  | (k', v') :: rest, k => if k' = k then some v' else GoMap.get? rest k

/-- The keys of a map. -/
def GoMap.keys {α : Type} (m : GoMap α) : List String := m.map Prod.fst

/-! ## net/http -/

/-- Type `http.Header`: header name to its list of values. -/
abbrev Header := GoMap (List String)

/-- Method `Header.Get` for a key that is already in canonical form: the first value, or `""`. -/
def Header.Get (h : Header) (key : String) : String :=
  match GoMap.get? h key with
  | some (v :: _) => v
  | _ => ""

/-- Type `url.URL`, the two parts the middleware reads. -/
structure URL where
  Path : String := ""
  RawQuery : String := ""
deriving DecidableEq, Repr

/-- Type `http.Request`, the parts the middleware reads. -/
structure Request where
  Method : String := ""
  URL : URL := {}
  Host : String := ""
  Header : Header := []
deriving DecidableEq, Repr

/-- Method `(*http.Request).UserAgent`. -/
def Request.UserAgent (r : Request) : String := Header.Get r.Header "User-Agent"

/-- Method `(*http.Request).Referer`. -/
def Request.Referer (r : Request) : String := Header.Get r.Header "Referer"

def StatusOK : Int := 200
def StatusBadRequest : Int := 400
def StatusInternalServerError : Int := 500

/-- Function `http.StatusText`: the reason phrase, `""` for an unknown code. -/
def StatusText (code : Int) : String :=
  match code with
  | 100 => "Continue"
  | 101 => "Switching Protocols"
  | 102 => "Processing"
  | 103 => "Early Hints"
  | 200 => "OK"
  | 201 => "Created"
  | 202 => "Accepted"
  | 203 => "Non-Authoritative Information"
  | 204 => "No Content"
  | 205 => "Reset Content"
  | 206 => "Partial Content"
  | 207 => "Multi-Status"
  | 208 => "Already Reported"
  | 226 => "IM Used"
  | 300 => "Multiple Choices"
  | 301 => "Moved Permanently"
  | 302 => "Found"
  | 303 => "See Other"
  | 304 => "Not Modified"
  | 305 => "Use Proxy"
  | 307 => "Temporary Redirect"
  | 308 => "Permanent Redirect"
  | 400 => "Bad Request"
  | 401 => "Unauthorized"
  | 402 => "Payment Required"
  | 403 => "Forbidden"
  | 404 => "Not Found"
  | 405 => "Method Not Allowed"
  | 406 => "Not Acceptable"
  | 407 => "Proxy Authentication Required"
  | 408 => "Request Timeout"
  | 409 => "Conflict"
  | 410 => "Gone"
  | 411 => "Length Required"
  | 412 => "Precondition Failed"
  | 413 => "Request Entity Too Large"
  | 414 => "Request URI Too Long"
  | 415 => "Unsupported Media Type"
  | 416 => "Requested Range Not Satisfiable"
  | 417 => "Expectation Failed"
  | 418 => "I\x27m a teapot"
  | 421 => "Misdirected Request"
  | 422 => "Unprocessable Entity"
  | 423 => "Locked"
  | 424 => "Failed Dependency"
  | 425 => "Too Early"
  | 426 => "Upgrade Required"
  | 428 => "Precondition Required"
  | 429 => "Too Many Requests"
  | 431 => "Request Header Fields Too Large"
  | 451 => "Unavailable For Legal Reasons"
  | 500 => "Internal Server Error"
  | 501 => "Not Implemented"
  | 502 => "Bad Gateway"
  | 503 => "Service Unavailable"
  | 504 => "Gateway Timeout"
  | 505 => "HTTP Version Not Supported"
  | 506 => "Variant Also Negotiates"
  | 507 => "Insufficient Storage"
  | 508 => "Loop Detected"
  | 510 => "Not Extended"
  | 511 => "Network Authentication Required"
  | _ => ""

/-! ## time -/

/-- A `time.Time` as produced by `time.Now()`: the clock reading in nanoseconds. -/
structure Time where
  ns : Int := 0
deriving DecidableEq, Repr

def maxDuration : Int := 2 ^ 63 - 1
def minDuration : Int := -(2 ^ 63)

/-- Conversion of an integer to `int64` (two-complement wrap-around). -/
def wrapInt64 (x : Int) : Int := (x + 2 ^ 63) % 2 ^ 64 - 2 ^ 63

/-- Function `subMono` of package time: `t - u` as a `Duration`, saturating. -/
def subMono (t u : Int) : Int :=
  let d := wrapInt64 (t - u)
  if d < 0 ∧ t > u then maxDuration
  else if d > 0 ∧ t < u then minDuration
  else d

/-- Method `Time.Sub` on two readings of `time.Now()`. -/
def Time.Sub (t u : Time) : Int := subMono t.ns u.ns

/-- A reading that `time.Now()` can return: a non-negative `int64`. -/
def Time.isReading (t : Time) : Prop := 0 ≤ t.ns ∧ t.ns < 2 ^ 63

instance (t : Time) : Decidable t.isReading :=
  inferInstanceAs (Decidable (0 ≤ t.ns ∧ t.ns < 2 ^ 63))

/-! ## logrus -/

/-- A value stored under a key of `logrus.Fields` or of `gin.Context.Keys` (`interface{}`). -/
inductive Value
  | str (s : String)
  | header (h : Header)
  | duration (d : Int)
  | time (t : Time)
  | int (n : Int)
deriving DecidableEq, Repr

/-- Type `logrus.Fields`. -/
abbrev Fields := GoMap Value

/-- Type `logrus.Level`. -/
inductive Level
  | Panic | Fatal | Error | Warn | Info | Debug | Trace
deriving DecidableEq, Repr

/-- A `*logrus.Logger`: `none` is nil, `some a` the logger object `a`. -/
abbrev LoggerPtr := Option Nat

/-- One call of a levelled log method on an entry of logger `logger`. -/
structure Record where
  logger : Nat
  level : Level
  fields : Fields
  message : String
deriving DecidableEq, Repr

/-! ## fmt -/

/-- Verb `%3s`: pad with spaces on the left to width 3. -/
def pad3 (s : String) : String :=
  String.mk (List.replicate (3 - s.length) ' ') ++ s

/-- The message `fmt.Sprintf("[gin-logrus]%d %s %3s", code, method, text)`. -/
def formatMessage (code : Int) (method text : String) : String :=
  "[gin-logrus]" ++ toString code ++ " " ++ method ++ " " ++ pad3 text

/-! ## The package -/

/-- Type `OptionalFieldsParams`: which optional fields the default transformer adds. -/
structure OptionalFieldsParams where
  Host : Bool := false
  Referer : Bool := false
  UserAgent : Bool := false
  Header : Bool := false
deriving DecidableEq, Repr

/-- Type `FieldsParams`: the snapshot handed to a transformer. -/
structure FieldsParams where
  Request : Request := {}
  TimeStamp : Time := {}
  StatusCode : Int := 0
  Latency : Int := 0
  ClientIP : String := ""
  Method : String := ""
  Path : String := ""
  ErrorMessage : String := ""
  BodySize : Int := 0
  Keys : GoMap Value := []
  Option : OptionalFieldsParams := {}
deriving DecidableEq, Repr

/-- What a transformer does: the records it emits, and whether it panicked. -/
structure Outcome where
  records : List Record := []
  panicked : Bool := false
deriving DecidableEq, Repr

/-- Type `LogTransformer`. -/
abbrev LogTransformer := LoggerPtr → FieldsParams → Outcome

/-- The package variable `defaultTransformer`. `logger.WithFields` dereferences the
logger, so a nil logger panics before anything is emitted. -/
def defaultTransformer : LogTransformer := fun logger params =>
  let fields : Fields := []
  let option := params.Option
  let fields := if option.Host then GoMap.set fields "Host" (.str params.Request.Host) else fields
  let fields := if option.Header then GoMap.set fields "Header" (.header params.Request.Header) else fields
  let fields := if option.UserAgent then GoMap.set fields "UserAgent" (.str params.Request.UserAgent) else fields
  let fields := if option.Referer then GoMap.set fields "Referer" (.str params.Request.Referer) else fields
  let fields := GoMap.set fields "Latency" (.duration params.Latency)
  let fields := GoMap.set fields "ClientIP" (.str params.ClientIP)
  let fields := GoMap.set fields "Path" (.str params.Path)
  let fields := GoMap.set fields "TimeStamp" (.time params.TimeStamp)
  match logger with
  | none => { records := [], panicked := true }
  | some entry =>
    let code := params.StatusCode
    let msg := formatMessage params.StatusCode params.Method (StatusText params.StatusCode)
    if code ≥ StatusOK ∧ code < StatusBadRequest then
      { records := [⟨entry, .Debug, fields, msg⟩] }
    else if code ≥ StatusBadRequest ∧ code < StatusInternalServerError then
      { records := [⟨entry, .Warn, fields, msg⟩] }
    else
      { records := [⟨entry, .Error, fields, msg⟩] }

/-- Type `LoggerConfig`; an unset `Logger` or `Formatter` is `none`. -/
structure LoggerConfig where
  Logger : LoggerPtr := none
  Formatter : Option LogTransformer := none
  SkipPaths : List String := []
  Option : OptionalFieldsParams := {}

/-! ## gin -/

/-- Type `gin.Error`: the error text, the type bit mask and the rendered meta data. -/
structure GinError where
  Err : String
  Typ : Nat
  Meta : Option String := none
deriving DecidableEq, Repr

def ErrorTypePrivate : Nat := 1

/-- Method `errorMsgs.ByType` for a type other than `ErrorTypeAny`. -/
def ByType (a : List GinError) (typ : Nat) : List GinError :=
  a.filter (fun msg => decide (msg.Typ &&& typ > 0))

/-- Verb `%02d` for a non-negative number. -/
def pad02 (n : Nat) : String :=
  if n < 10 then "0" ++ toString n else toString n

/-- The loop of `errorMsgs.String`, `i` being the index of the first message. -/
def errorLines : Nat → List GinError → String
  | _, [] => ""
  | i, msg :: rest =>
    "Error #" ++ pad02 (i + 1) ++ ": " ++ msg.Err ++ "\n" ++
      (match msg.Meta with
       | some m => "     Meta: " ++ m ++ "\n"
       | none => "") ++
      errorLines (i + 1) rest

/-- Method `errorMsgs.String`. -/
def errorString (a : List GinError) : String := errorLines 0 a

/-- The response writer: what `Status()` and `Size()` return. -/
structure ResponseWriter where
  status : Int := 200
  size : Int := -1
deriving DecidableEq, Repr

/-- Type `gin.Context`, the parts the middleware reads. `ClientIP` is what the
method `ctx.ClientIP()` resolves to. -/
structure Context where
  Request : Request := {}
  Writer : ResponseWriter := {}
  Keys : GoMap Value := []
  Errors : List GinError := []
  ClientIP : String := ""
deriving DecidableEq, Repr

/-- The state a handler runs against: the gin context and the clock. -/
structure World where
  ctx : Context := {}
  now : Time := {}
deriving DecidableEq, Repr

/-- What the handler is observed to do: `next` is one run of the downstream chain by
`ctx.Next()`, `transform` one call of the bound transformer (`builtin` telling whether that is
`defaultTransformer`) with its two arguments, `log` one record emitted by that call, and
`panic` a panic raised by it. -/
inductive Event
  | next
  | transform (builtin : Bool) (logger : LoggerPtr) (params : FieldsParams)
  | log (r : Record)
  | panic
deriving DecidableEq, Repr

/-- The result of running a handler: the world it leaves and what it did. -/
structure Run where
  world : World
  trace : List Event
deriving DecidableEq, Repr

/-- The events of one transformer call. -/
def Outcome.events (o : Outcome) : List Event :=
  o.records.map Event.log ++ (if o.panicked then [Event.panic] else [])

/-- The skip set built by `LoggerWithConfig`: nil when `SkipPaths` is empty. -/
def skipSet (SkipPaths : List String) : GoMap Unit :=
  if SkipPaths.length > 0 then
    SkipPaths.foldl (fun skip path => GoMap.set skip path ()) []
  else []

/-- Function `LoggerWithConfig`: the handler it returns, run with downstream chain
`next` in world `w`. The flag `builtin` records that the transformer bound is
`defaultTransformer`. -/
def LoggerWithConfig (config : LoggerConfig) (next : World → World) (w : World) : Run :=
  let logger := config.Logger
  let (builtin, transformer) : Bool × LogTransformer :=
    match config.Formatter with
    | none => (true, defaultTransformer)
    | some f => (false, f)
  let skip := skipSet config.SkipPaths
  -- the handler
  let start := w.now
  let path := w.ctx.Request.URL.Path
  let raw := w.ctx.Request.URL.RawQuery
  let w := next w
  let ctx := w.ctx
  match GoMap.get? skip path with
  | some _ => { world := w, trace := [.next] }
  | none =>
    let param : FieldsParams := { Request := ctx.Request, Keys := ctx.Keys, Option := config.Option }
    let param := { param with TimeStamp := w.now }
    let param := { param with Latency := param.TimeStamp.Sub start }
    let param := { param with ClientIP := ctx.ClientIP }
    let param := { param with Method := ctx.Request.Method }
    let param := { param with StatusCode := ctx.Writer.status }
    let param := { param with ErrorMessage := errorString (ByType ctx.Errors ErrorTypePrivate) }
    let param := { param with BodySize := ctx.Writer.size }
    let path := if raw ≠ "" then path ++ "?" ++ raw else path
    let param := { param with Path := path }
    { world := w,
      trace := [.next, .transform builtin logger param] ++ (transformer logger param).events }

/-- Function `Logger`; `fresh` is the logger object that `logrus.New()` returns. -/
def Logger (fresh : Nat) : (World → World) → World → Run :=
  LoggerWithConfig { Logger := some fresh, Option := {} }

/-! ## Reading a trace -/

/-- Number of times the downstream chain was run. -/
def nextCalls (t : List Event) : Nat :=
  (t.filter (fun e => match e with | .next => true | _ => false)).length

/-- The transformer invocations: which function, with which logger and snapshot. -/
def invocations : List Event → List (Bool × LoggerPtr × FieldsParams)
  | [] => []
  | .transform b l p :: rest => (b, l, p) :: invocations rest
  | _ :: rest => invocations rest

/-- The snapshots passed to the transformer. -/
def snapshots (t : List Event) : List FieldsParams :=
  (invocations t).map (fun i => i.2.2)

/-- The log records emitted. -/
def records : List Event → List Record
  | [] => []
  | .log r :: rest => r :: records rest
  | _ :: rest => records rest

/-! ## Sample inputs -/

/-- A world in which the request is `GET path?query`, at clock reading 10. -/
def sampleWorld (path query : String) : World :=
  { ctx :=
      { Request :=
          { Method := "GET", URL := { Path := path, RawQuery := query }, Host := "example.org",
            Header := [("User-Agent", ["curl/8.0"]), ("Referer", ["http://example.org/"])] },
        ClientIP := "192.0.2.7" },
    now := { ns := 10 } }

/-- A downstream chain that answers 404 with a body of 12 bytes and takes 25 ns. -/
def sampleChain : World → World := fun w =>
  { ctx := { w.ctx with Writer := { status := 404, size := 12 } }, now := { ns := w.now.ns + 25 } }

/-- A snapshot of a `GET /items?id=5` answered 503, with the given error message, body size
and context keys. -/
def sampleParams (message : String) (size : Int) (keys : GoMap Value) : FieldsParams :=
  { Request := (sampleWorld "/items" "id=5").ctx.Request, TimeStamp := { ns := 35 },
    StatusCode := 503, Latency := 25, ClientIP := "192.0.2.7", Method := "GET",
    Path := "/items?id=5", ErrorMessage := message, BodySize := size, Keys := keys,
    Option := { Host := true, Referer := true } }

/-- A custom transformer: one Info record carrying the method, on the logger it is given. -/
def sampleTransformer : LogTransformer := fun logger params =>
  match logger with
  | none => { panicked := true }
  | some entry => { records := [⟨entry, .Info, [("Method", .str params.Method)], "request"⟩] }

/-! ## Lemmas on Go maps -/

theorem GoMap.get?_set {α : Type} (m : GoMap α) (k k' : String) (v : α) :
    GoMap.get? (GoMap.set m k v) k' = if k = k' then some v else GoMap.get? m k' := by
  induction m with
  | nil => simp [GoMap.set, GoMap.get?]
  | cons hd tl ih =>
    obtain ⟨a, b⟩ := hd
    by_cases hak : a = k
    · subst hak
      by_cases hak' : a = k' <;> simp [GoMap.set, GoMap.get?, hak']
    · by_cases hak' : a = k'
      · subst hak'
        have hne : ¬ k = a := fun h => hak h.symm
        simp [GoMap.set, GoMap.get?, hak, hne]
      · simp [GoMap.set, GoMap.get?, hak, hak', ih]

theorem GoMap.mem_keys_set {α : Type} (m : GoMap α) (k k' : String) (v : α) :
    k' ∈ GoMap.keys (GoMap.set m k v) ↔ k' = k ∨ k' ∈ GoMap.keys m := by
  induction m with
  | nil => simp [GoMap.set, GoMap.keys]
  | cons hd tl ih =>
    obtain ⟨a, b⟩ := hd
    by_cases hak : a = k
    · subst hak
      simp [GoMap.set, GoMap.keys]
    · have ih' : k' ∈ List.map Prod.fst (GoMap.set tl k v) ↔ k' = k ∨ k' ∈ List.map Prod.fst tl := ih
      simp only [GoMap.set, hak, if_false, GoMap.keys, List.map_cons, List.mem_cons, ih']
      tauto

theorem GoMap.get?_eq_none_iff {α : Type} (m : GoMap α) (k : String) :
    GoMap.get? m k = none ↔ k ∉ GoMap.keys m := by
  induction m with
  | nil => simp [GoMap.get?, GoMap.keys]
  | cons hd tl ih =>
    obtain ⟨a, b⟩ := hd
    have ih' : GoMap.get? tl k = none ↔ k ∉ List.map Prod.fst tl := ih
    by_cases hak : a = k
    · subst hak
      simp [GoMap.get?, GoMap.keys]
    · have hne : ¬ k = a := fun h => hak h.symm
      simp only [GoMap.get?, hak, if_false, GoMap.keys, List.map_cons, List.mem_cons, ih', hne,
        false_or]

theorem mem_keys_foldl_set (ps : List String) (acc : GoMap Unit) (p : String) :
    p ∈ GoMap.keys (ps.foldl (fun skip path => GoMap.set skip path ()) acc) ↔
      p ∈ GoMap.keys acc ∨ p ∈ ps := by
  induction ps generalizing acc with
  | nil => simp
  | cons hd tl ih =>
    simp only [List.foldl_cons, ih, GoMap.mem_keys_set, List.mem_cons]
    tauto

theorem mem_keys_skipSet (ps : List String) (p : String) :
    p ∈ GoMap.keys (skipSet ps) ↔ p ∈ ps := by
  unfold skipSet
  split
  · rw [mem_keys_foldl_set]
    simp [GoMap.keys]
  · rename_i h
    have : ps = [] := by
      cases ps with
      | nil => rfl
      | cons a t => simp at h
    subst this
    simp [GoMap.keys]

theorem get?_skipSet_of_mem (ps : List String) (p : String) (h : p ∈ ps) :
    GoMap.get? (skipSet ps) p = some () := by
  cases hg : GoMap.get? (skipSet ps) p with
  | some u => rfl
  | none =>
    exact absurd ((mem_keys_skipSet ps p).2 h) ((GoMap.get?_eq_none_iff _ _).1 hg)

theorem get?_skipSet_of_not_mem (ps : List String) (p : String) (h : p ∉ ps) :
    GoMap.get? (skipSet ps) p = none :=
  (GoMap.get?_eq_none_iff _ _).2 (fun hk => h ((mem_keys_skipSet ps p).1 hk))

/-! ## Lemmas on the handler -/

theorem LoggerWithConfig_skipped (config : LoggerConfig) (next : World → World) (w : World)
    (h : w.ctx.Request.URL.Path ∈ config.SkipPaths) :
    LoggerWithConfig config next w = { world := next w, trace := [.next] } := by
  have hs := get?_skipSet_of_mem _ _ h
  simp only [LoggerWithConfig, hs]

theorem LoggerWithConfig_logged (config : LoggerConfig) (next : World → World) (w : World)
    (h : w.ctx.Request.URL.Path ∉ config.SkipPaths) (param : FieldsParams)
    (hp : param =
      { Request := (next w).ctx.Request
        TimeStamp := (next w).now
        StatusCode := (next w).ctx.Writer.status
        Latency := (next w).now.Sub w.now
        ClientIP := (next w).ctx.ClientIP
        Method := (next w).ctx.Request.Method
        Path := if w.ctx.Request.URL.RawQuery ≠ "" then
            w.ctx.Request.URL.Path ++ "?" ++ w.ctx.Request.URL.RawQuery
          else w.ctx.Request.URL.Path
        ErrorMessage := errorString (ByType (next w).ctx.Errors ErrorTypePrivate)
        BodySize := (next w).ctx.Writer.size
        Keys := (next w).ctx.Keys
        Option := config.Option }) :
    LoggerWithConfig config next w =
      { world := next w,
        trace := [.next, .transform config.Formatter.isNone config.Logger param] ++
          ((config.Formatter.getD defaultTransformer) config.Logger param).events } := by
  have hs := get?_skipSet_of_not_mem _ _ h
  subst hp
  cases hf : config.Formatter <;> simp only [LoggerWithConfig, hs, hf] <;> rfl


/-! ## Lemmas on the default transformer -/

theorem mem_keys_ite_set {α : Type} (b : Bool) (m : GoMap α) (k k' : String) (v : α) :
    k' ∈ GoMap.keys (if b = true then GoMap.set m k v else m) ↔
      (k' = k ∧ b = true) ∨ k' ∈ GoMap.keys m := by
  cases b <;> simp [GoMap.mem_keys_set]

theorem not_mem_keys_nil {α : Type} (k : String) : k ∉ GoMap.keys ([] : GoMap α) := by
  simp [GoMap.keys]

theorem defaultTransformer_some (entry : Nat) (params : FieldsParams) (f1 f2 f3 f4 : Fields)
    (h1 : f1 = if params.Option.Host then
      GoMap.set [] "Host" (Value.str params.Request.Host) else [])
    (h2 : f2 = if params.Option.Header then
      GoMap.set f1 "Header" (Value.header params.Request.Header) else f1)
    (h3 : f3 = if params.Option.UserAgent then
      GoMap.set f2 "UserAgent" (Value.str params.Request.UserAgent) else f2)
    (h4 : f4 = if params.Option.Referer then
      GoMap.set f3 "Referer" (Value.str params.Request.Referer) else f3) :
    defaultTransformer (some entry) params =
      { records := [
          { logger := entry
            level :=
              if 200 ≤ params.StatusCode ∧ params.StatusCode < 400 then Level.Debug
              else if 400 ≤ params.StatusCode ∧ params.StatusCode < 500 then Level.Warn
              else Level.Error
            fields :=
              GoMap.set (GoMap.set (GoMap.set (GoMap.set f4
                "Latency" (Value.duration params.Latency))
                "ClientIP" (Value.str params.ClientIP))
                "Path" (Value.str params.Path))
                "TimeStamp" (Value.time params.TimeStamp)
            message :=
              formatMessage params.StatusCode params.Method (StatusText params.StatusCode) }],
        panicked := false } := by
  subst h1 h2 h3 h4
  simp only [defaultTransformer, StatusOK, StatusBadRequest, StatusInternalServerError]
  split_ifs <;> rfl

theorem defaultTransformer_nil (params : FieldsParams) :
    defaultTransformer none params = { records := [], panicked := true } := rfl

/-! ## The default transformer -/

/-- C1: on a snapshot, `defaultTransformer` (given a logger) emits exactly one record and does
not panic; the level of the record is debug exactly when `200 ≤ StatusCode < 400`, warning
exactly when `400 ≤ StatusCode < 500`, and error exactly for every other integer. -/
theorem defaultTransformer_one_record_level_by_status (entry : Nat) (params : FieldsParams) :
    ∃ r : Record,
      defaultTransformer (some entry) params = { records := [r], panicked := false } ∧
      records (defaultTransformer (some entry) params).events = [r] ∧
      r.logger = entry ∧
      (r.level = Level.Debug ↔ 200 ≤ params.StatusCode ∧ params.StatusCode < 400) ∧
      (r.level = Level.Warn ↔ 400 ≤ params.StatusCode ∧ params.StatusCode < 500) ∧
      (r.level = Level.Error ↔ params.StatusCode < 200 ∨ 500 ≤ params.StatusCode) := by
  refine ⟨_, defaultTransformer_some entry params _ _ _ _ rfl rfl rfl rfl, ?_, rfl, ?_, ?_, ?_⟩
  · rw [defaultTransformer_some entry params _ _ _ _ rfl rfl rfl rfl]
    rfl
  all_goals
    dsimp only
    split_ifs <;> simp <;> omega

/-- C5: the field mapping emitted by `defaultTransformer` has the key "Host" exactly when
`Option.Host` is set, "Header" exactly when `Option.Header` is, "UserAgent" exactly when
`Option.UserAgent` is and "Referer" exactly when `Option.Referer` is; a key that is present
holds the request's host, header mapping, user agent and referer respectively. -/
theorem defaultTransformer_optional_fields (entry : Nat) (params : FieldsParams) :
    ∃ r : Record,
      defaultTransformer (some entry) params = { records := [r], panicked := false } ∧
      ("Host" ∈ GoMap.keys r.fields ↔ params.Option.Host = true) ∧
      ("Header" ∈ GoMap.keys r.fields ↔ params.Option.Header = true) ∧
      ("UserAgent" ∈ GoMap.keys r.fields ↔ params.Option.UserAgent = true) ∧
      ("Referer" ∈ GoMap.keys r.fields ↔ params.Option.Referer = true) ∧
      GoMap.get? r.fields "Host" =
        (if params.Option.Host then some (Value.str params.Request.Host) else none) ∧
      GoMap.get? r.fields "Header" =
        (if params.Option.Header then some (Value.header params.Request.Header) else none) ∧
      GoMap.get? r.fields "UserAgent" =
        (if params.Option.UserAgent then
          some (Value.str (Header.Get params.Request.Header "User-Agent")) else none) ∧
      GoMap.get? r.fields "Referer" =
        (if params.Option.Referer then
          some (Value.str (Header.Get params.Request.Header "Referer")) else none) := by
  refine ⟨_, defaultTransformer_some entry params _ _ _ _ rfl rfl rfl rfl, ?_⟩
  dsimp only
  cases params.Option.Host <;> cases params.Option.Header <;>
    cases params.Option.UserAgent <;> cases params.Option.Referer <;>
    simp only [GoMap.mem_keys_set, GoMap.get?_set, if_true, if_false, Bool.false_eq_true] <;>
    simp [GoMap.get?, GoMap.keys, Request.UserAgent, Request.Referer]

/-- C8: the field mapping emitted by `defaultTransformer` always has the keys "Latency",
"ClientIP", "Path" and "TimeStamp", holding the snapshot's Latency, ClientIP, Path and
TimeStamp, whatever the status code and the optional flags are. -/
theorem defaultTransformer_mandatory_fields (entry : Nat) (params : FieldsParams) :
    ∃ r : Record,
      defaultTransformer (some entry) params = { records := [r], panicked := false } ∧
      GoMap.get? r.fields "Latency" = some (Value.duration params.Latency) ∧
      GoMap.get? r.fields "ClientIP" = some (Value.str params.ClientIP) ∧
      GoMap.get? r.fields "Path" = some (Value.str params.Path) ∧
      GoMap.get? r.fields "TimeStamp" = some (Value.time params.TimeStamp) ∧
      "Latency" ∈ GoMap.keys r.fields ∧ "ClientIP" ∈ GoMap.keys r.fields ∧
      "Path" ∈ GoMap.keys r.fields ∧ "TimeStamp" ∈ GoMap.keys r.fields := by
  refine ⟨_, defaultTransformer_some entry params _ _ _ _ rfl rfl rfl rfl, ?_⟩
  simp [GoMap.get?_set, GoMap.mem_keys_set]

/-- C10: two snapshots that agree on Request, TimeStamp, StatusCode, Latency, ClientIP,
Method, Path and Option make `defaultTransformer` do the same thing (same records, with the
same level, message and fields), whatever their ErrorMessage, BodySize and Keys are; and the
keys of an emitted field mapping are exactly "Latency", "ClientIP", "Path", "TimeStamp" and
the optional keys whose flag is set. -/
theorem defaultTransformer_ignores_errors_size_keys (logger : LoggerPtr) (p q : FieldsParams)
    (hRequest : p.Request = q.Request) (hTimeStamp : p.TimeStamp = q.TimeStamp)
    (hStatusCode : p.StatusCode = q.StatusCode) (hLatency : p.Latency = q.Latency)
    (hClientIP : p.ClientIP = q.ClientIP) (hMethod : p.Method = q.Method)
    (hPath : p.Path = q.Path) (hOption : p.Option = q.Option) :
    defaultTransformer logger p = defaultTransformer logger q ∧
    ∀ r ∈ (defaultTransformer logger p).records, ∀ k : String,
      k ∈ GoMap.keys r.fields ↔
        (k = "Latency" ∨ k = "ClientIP" ∨ k = "Path" ∨ k = "TimeStamp" ∨
          (k = "Host" ∧ p.Option.Host = true) ∨ (k = "Header" ∧ p.Option.Header = true) ∨
          (k = "UserAgent" ∧ p.Option.UserAgent = true) ∨
          (k = "Referer" ∧ p.Option.Referer = true)) := by
  constructor
  · cases logger with
    | none => rfl
    | some entry =>
      rw [defaultTransformer_some entry p _ _ _ _ rfl rfl rfl rfl,
        defaultTransformer_some entry q _ _ _ _ rfl rfl rfl rfl,
        hRequest, hTimeStamp, hStatusCode, hLatency, hClientIP, hMethod, hPath, hOption]
  · cases logger with
    | none => intro r hr; simp [defaultTransformer_nil] at hr
    | some entry =>
      intro r hr k
      rw [defaultTransformer_some entry p _ _ _ _ rfl rfl rfl rfl] at hr
      simp only [List.mem_singleton] at hr
      subst hr
      dsimp only
      simp only [GoMap.mem_keys_set, mem_keys_ite_set, not_mem_keys_nil]
      tauto

theorem defaultTransformer_ignores_errors_size_keys_witness :
    (sampleParams "Error #01: boom\n" 512 [("user", Value.str "alice")]).Request =
      (sampleParams "" (-1) []).Request ∧
    (sampleParams "Error #01: boom\n" 512 [("user", Value.str "alice")]).Option =
      (sampleParams "" (-1) []).Option ∧
    defaultTransformer (some 1) (sampleParams "Error #01: boom\n" 512 [("user", Value.str "alice")]) =
      defaultTransformer (some 1) (sampleParams "" (-1) []) ∧
    (defaultTransformer (some 1)
      (sampleParams "Error #01: boom\n" 512 [("user", Value.str "alice")])).records.map
        (fun r => (r.level, GoMap.keys r.fields)) =
      [(Level.Error, ["Host", "Referer", "Latency", "ClientIP", "Path", "TimeStamp"])] :=
  ⟨rfl, rfl,
    (defaultTransformer_ignores_errors_size_keys (some 1)
      (sampleParams "Error #01: boom\n" 512 [("user", Value.str "alice")])
      (sampleParams "" (-1) []) rfl rfl rfl rfl rfl rfl rfl rfl).1,
    by decide⟩

/-! ## Lemmas on traces and on time -/

theorem invocations_log_append (rs : List Record) (t : List Event) :
    invocations (rs.map Event.log ++ t) = invocations t := by
  induction rs with
  | nil => rfl
  | cons r rs ih => simpa [invocations] using ih

theorem records_log_append (rs : List Record) (t : List Event) :
    records (rs.map Event.log ++ t) = rs ++ records t := by
  induction rs with
  | nil => rfl
  | cons r rs ih => simpa [records] using ih

theorem nextCalls_log_append (rs : List Record) (t : List Event) :
    nextCalls (rs.map Event.log ++ t) = nextCalls t := by
  induction rs with
  | nil => rfl
  | cons r rs ih => simp [nextCalls]

theorem invocations_events (o : Outcome) : invocations o.events = [] := by
  unfold Outcome.events
  rw [invocations_log_append]
  split <;> rfl

theorem records_events (o : Outcome) : records o.events = o.records := by
  unfold Outcome.events
  rw [records_log_append]
  split <;> simp [records]

theorem nextCalls_events (o : Outcome) : nextCalls o.events = 0 := by
  unfold Outcome.events
  rw [nextCalls_log_append]
  split <;> rfl

theorem invocations_logged (b : Bool) (l : LoggerPtr) (p : FieldsParams) (o : Outcome) :
    invocations ([Event.next, Event.transform b l p] ++ o.events) = [(b, l, p)] := by
  simp [invocations, invocations_events]

theorem records_logged (b : Bool) (l : LoggerPtr) (p : FieldsParams) (o : Outcome) :
    records ([Event.next, Event.transform b l p] ++ o.events) = o.records := by
  simp [records, records_events]

theorem nextCalls_logged (b : Bool) (l : LoggerPtr) (p : FieldsParams) (o : Outcome) :
    nextCalls ([Event.next, Event.transform b l p] ++ o.events) = 1 := by
  have h := nextCalls_events o
  simp only [nextCalls] at h ⊢
  simp [List.filter_cons, h]

theorem subMono_of_readings (t u : Int) (ht0 : 0 ≤ t) (ht : t < 2 ^ 63) (hu0 : 0 ≤ u)
    (hu : u < 2 ^ 63) : subMono t u = t - u := by
  unfold subMono wrapInt64 maxDuration minDuration
  norm_num at ht hu ⊢
  split_ifs <;> omega

theorem subMono_nonneg (t u : Int) (h : u ≤ t) : 0 ≤ subMono t u := by
  unfold subMono wrapInt64 maxDuration minDuration
  norm_num
  split_ifs <;> omega

/-! ## The middleware -/

/-- C2: when the URL path read before the downstream chain runs is one of `config.SkipPaths`,
the handler runs the downstream chain exactly once and does nothing else: the transformer is
invoked zero times and no record is emitted, whatever the query string, the status code and
the downstream chain are. -/
theorem skipped_path_emits_nothing (config : LoggerConfig) (next : World → World) (w : World)
    (h : w.ctx.Request.URL.Path ∈ config.SkipPaths) :
    (LoggerWithConfig config next w).trace = [Event.next] ∧
    (invocations (LoggerWithConfig config next w).trace).length = 0 ∧
    records (LoggerWithConfig config next w).trace = [] ∧
    nextCalls (LoggerWithConfig config next w).trace = 1 ∧
    (LoggerWithConfig config next w).world = next w := by
  rw [LoggerWithConfig_skipped config next w h]
  exact ⟨rfl, rfl, rfl, rfl, rfl⟩

theorem skipped_path_emits_nothing_witness :
    (sampleWorld "/health" "verbose=1").ctx.Request.URL.Path ∈
      ({ Logger := some 1, SkipPaths := ["/metrics", "/health"] } : LoggerConfig).SkipPaths ∧
    ((LoggerWithConfig { Logger := some 1, SkipPaths := ["/metrics", "/health"] } sampleChain
        (sampleWorld "/health" "verbose=1")).trace = [Event.next] ∧
      (invocations (LoggerWithConfig { Logger := some 1, SkipPaths := ["/metrics", "/health"] }
        sampleChain (sampleWorld "/health" "verbose=1")).trace).length = 0 ∧
      records (LoggerWithConfig { Logger := some 1, SkipPaths := ["/metrics", "/health"] }
        sampleChain (sampleWorld "/health" "verbose=1")).trace = [] ∧
      nextCalls (LoggerWithConfig { Logger := some 1, SkipPaths := ["/metrics", "/health"] }
        sampleChain (sampleWorld "/health" "verbose=1")).trace = 1 ∧
      (LoggerWithConfig { Logger := some 1, SkipPaths := ["/metrics", "/health"] } sampleChain
        (sampleWorld "/health" "verbose=1")).world = sampleChain (sampleWorld "/health" "verbose=1")) :=
  ⟨by decide,
    skipped_path_emits_nothing { Logger := some 1, SkipPaths := ["/metrics", "/health"] }
      sampleChain (sampleWorld "/health" "verbose=1") (by decide)⟩

/-- C3: skip matching is exact string equality. When the URL path is not equal to any element
of `config.SkipPaths` (which may be empty), the handler invokes the transformer exactly once,
after running the downstream chain once. With `SkipPaths = ["/health"]` a request to
"/health/" is transformed once and a request to "/health" is not transformed. -/
theorem unlisted_path_transformed_once (config : LoggerConfig) (next : World → World) (w : World)
    (h : w.ctx.Request.URL.Path ∉ config.SkipPaths) :
    (invocations (LoggerWithConfig config next w).trace).length = 1 ∧
    nextCalls (LoggerWithConfig config next w).trace = 1 ∧
    (∀ (c : LoggerConfig) (n : World → World) (v : World), c.SkipPaths = ["/health"] →
      (v.ctx.Request.URL.Path = "/health/" →
        (invocations (LoggerWithConfig c n v).trace).length = 1) ∧
      (v.ctx.Request.URL.Path = "/health" →
        (invocations (LoggerWithConfig c n v).trace).length = 0)) := by
  refine ⟨?_, ?_, ?_⟩
  · rw [LoggerWithConfig_logged config next w h _ rfl]
    simp only [invocations_logged, List.length_singleton]
  · rw [LoggerWithConfig_logged config next w h _ rfl]
    simp only [nextCalls_logged]
  · intro c n v hc
    constructor
    · intro hv
      have hn : v.ctx.Request.URL.Path ∉ c.SkipPaths := by rw [hc, hv]; decide
      rw [LoggerWithConfig_logged c n v hn _ rfl]
      simp only [invocations_logged, List.length_singleton]
    · intro hv
      have hm : v.ctx.Request.URL.Path ∈ c.SkipPaths := by rw [hc, hv]; decide
      rw [LoggerWithConfig_skipped c n v hm]
      rfl

theorem unlisted_path_transformed_once_witness :
    (sampleWorld "/health/" "").ctx.Request.URL.Path ∉
      ({ Logger := some 1, SkipPaths := ["/health"] } : LoggerConfig).SkipPaths ∧
    (invocations (LoggerWithConfig { Logger := some 1, SkipPaths := ["/health"] } sampleChain
      (sampleWorld "/health/" "")).trace).length = 1 ∧
    (sampleWorld "/Health" "").ctx.Request.URL.Path ∉
      ({ Logger := some 1, SkipPaths := [] } : LoggerConfig).SkipPaths ∧
    (invocations (LoggerWithConfig { Logger := some 1, SkipPaths := [] } sampleChain
      (sampleWorld "/Health" "")).trace).length = 1 :=
  ⟨by decide,
    (unlisted_path_transformed_once { Logger := some 1, SkipPaths := ["/health"] } sampleChain
      (sampleWorld "/health/" "") (by decide)).1,
    by decide,
    (unlisted_path_transformed_once { Logger := some 1, SkipPaths := [] } sampleChain
      (sampleWorld "/Health" "") (by decide)).1⟩

/-- C4: for a request that is not skipped, with URL path `p` and raw query `q` read before the
downstream chain runs, the snapshot passed to the transformer has `Path = p` when `q` is empty
and `Path = p ++ "?" ++ q` otherwise; with the default transformer (and a logger) the record
emitted holds that same value under the key "Path". -/
theorem snapshot_path_with_query (config : LoggerConfig) (next : World → World) (w : World)
    (h : w.ctx.Request.URL.Path ∉ config.SkipPaths) :
    (snapshots (LoggerWithConfig config next w).trace).map FieldsParams.Path =
      [if w.ctx.Request.URL.RawQuery = "" then w.ctx.Request.URL.Path
        else w.ctx.Request.URL.Path ++ "?" ++ w.ctx.Request.URL.RawQuery] ∧
    (∀ entry : Nat, config.Formatter = none → config.Logger = some entry →
      (records (LoggerWithConfig config next w).trace).map (fun r => GoMap.get? r.fields "Path") =
        [some (Value.str (if w.ctx.Request.URL.RawQuery = "" then w.ctx.Request.URL.Path
          else w.ctx.Request.URL.Path ++ "?" ++ w.ctx.Request.URL.RawQuery))]) := by
  rw [LoggerWithConfig_logged config next w h _ rfl]
  constructor
  · simp only [snapshots, invocations_logged, List.map_cons, List.map_nil]
    split_ifs <;> first | rfl | contradiction
  · intro entry hf hl
    simp only [records_logged, hf, hl, Option.getD_none]
    rw [defaultTransformer_some entry _ _ _ _ _ rfl rfl rfl rfl]
    simp only [List.map_cons, List.map_nil, GoMap.get?_set]
    split_ifs <;> first | rfl | contradiction

theorem snapshot_path_with_query_witness :
    (sampleWorld "/items" "id=5").ctx.Request.URL.Path ∉
      ({ Logger := some 1 } : LoggerConfig).SkipPaths ∧
    (snapshots (LoggerWithConfig { Logger := some 1 } sampleChain
      (sampleWorld "/items" "id=5")).trace).map FieldsParams.Path = ["/items?id=5"] ∧
    (records (LoggerWithConfig { Logger := some 1 } sampleChain
      (sampleWorld "/items" "id=5")).trace).map (fun r => GoMap.get? r.fields "Path") =
        [some (Value.str "/items?id=5")] ∧
    (snapshots (LoggerWithConfig { Logger := some 1 } sampleChain
      (sampleWorld "/items" "")).trace).map FieldsParams.Path = ["/items"] :=
  ⟨by decide,
    (snapshot_path_with_query { Logger := some 1 } sampleChain (sampleWorld "/items" "id=5")
      (by decide)).1,
    (snapshot_path_with_query { Logger := some 1 } sampleChain (sampleWorld "/items" "id=5")
      (by decide)).2 1 rfl rfl,
    (snapshot_path_with_query { Logger := some 1 } sampleChain (sampleWorld "/items" "")
      (by decide)).1⟩

/-- C6: when `config.Formatter` is set and the request is not skipped, the handler invokes
that transformer exactly once and does not invoke `defaultTransformer`; what the handler does
is the downstream chain followed by that one call. The logger passed is `config.Logger`, and
the snapshot has the method of the request and the status of the response writer as they are
after the downstream chain, the path (with "?" and the raw query when there is one) as read
before it, and `config.Option`. -/
theorem custom_transformer_gets_snapshot (config : LoggerConfig) (next : World → World)
    (w : World) (f : LogTransformer) (hf : config.Formatter = some f)
    (h : w.ctx.Request.URL.Path ∉ config.SkipPaths) :
    ∃ p : FieldsParams,
      (LoggerWithConfig config next w).trace =
        [Event.next, Event.transform false config.Logger p] ++ (f config.Logger p).events ∧
      invocations (LoggerWithConfig config next w).trace = [(false, config.Logger, p)] ∧
      p.Method = (next w).ctx.Request.Method ∧
      p.StatusCode = (next w).ctx.Writer.status ∧
      p.Path = (if w.ctx.Request.URL.RawQuery = "" then w.ctx.Request.URL.Path
        else w.ctx.Request.URL.Path ++ "?" ++ w.ctx.Request.URL.RawQuery) ∧
      p.Option = config.Option := by
  have key := LoggerWithConfig_logged config next w h _ rfl
  rw [hf] at key
  refine ⟨_, congrArg Run.trace key, ?_, rfl, rfl, ?_, rfl⟩
  · rw [key]
    exact invocations_logged _ _ _ _
  · dsimp only
    split_ifs <;> first | rfl | contradiction

theorem custom_transformer_gets_snapshot_witness :
    ({ Logger := some 7, Formatter := some sampleTransformer, Option := { Host := true } } :
      LoggerConfig).Formatter = some sampleTransformer ∧
    (sampleWorld "/items" "id=5").ctx.Request.URL.Path ∉
      ({ Logger := some 7, Formatter := some sampleTransformer, Option := { Host := true } } :
        LoggerConfig).SkipPaths ∧
    ∃ p : FieldsParams,
      (LoggerWithConfig
          { Logger := some 7, Formatter := some sampleTransformer, Option := { Host := true } }
          sampleChain (sampleWorld "/items" "id=5")).trace =
        [Event.next, Event.transform false (some 7) p] ++ (sampleTransformer (some 7) p).events ∧
      invocations (LoggerWithConfig
          { Logger := some 7, Formatter := some sampleTransformer, Option := { Host := true } }
          sampleChain (sampleWorld "/items" "id=5")).trace = [(false, some 7, p)] ∧
      p.Method = "GET" ∧ p.StatusCode = 404 ∧ p.Path = "/items?id=5" ∧
      p.Option = { Host := true } :=
  ⟨rfl, by decide,
    custom_transformer_gets_snapshot
      { Logger := some 7, Formatter := some sampleTransformer, Option := { Host := true } }
      sampleChain (sampleWorld "/items" "id=5") sampleTransformer rfl (by decide)⟩

/-- C7: the code at the input `LoggerWithConfig(LoggerConfig{})` on `GET /items`. The unset
Formatter is replaced by `defaultTransformer`, but the unset Logger is not replaced: the
transformer is invoked with a nil logger, panics in `logger.WithFields` and emits no record,
whereas the handler of `Logger()` on the same request passes the logger of `logrus.New()` and
emits one record. So it is not the case that every config with an unset Logger has a non-nil
logger passed to the transformer. -/
theorem nil_logger_reaches_transformer :
    ({ } : LoggerConfig).Logger = none ∧
    (invocations (LoggerWithConfig { } sampleChain (sampleWorld "/items" "")).trace).map
      (fun i => (i.1, i.2.1)) = [(true, none)] ∧
    records (LoggerWithConfig { } sampleChain (sampleWorld "/items" "")).trace = [] ∧
    Event.panic ∈ (LoggerWithConfig { } sampleChain (sampleWorld "/items" "")).trace ∧
    (invocations (Logger 1 sampleChain (sampleWorld "/items" "")).trace).map
      (fun i => (i.1, i.2.1)) = [(true, some 1)] ∧
    (records (Logger 1 sampleChain (sampleWorld "/items" "")).trace).map
      (fun r => (r.logger, r.level)) = [(1, Level.Warn)] ∧
    ¬ (∀ (config : LoggerConfig) (next : World → World) (w : World), config.Logger = none →
        ∀ i ∈ invocations (LoggerWithConfig config next w).trace, i.2.1 ≠ none) := by
  refine ⟨rfl, by decide, by decide, by decide, by decide, by decide, ?_⟩
  intro hall
  have hm : (none : LoggerPtr) ∈
      (invocations (LoggerWithConfig { } sampleChain (sampleWorld "/items" "")).trace).map
        (fun i => i.2.1) := by decide
  obtain ⟨i, hi, hnil⟩ := List.mem_map.1 hm
  exact hall { } sampleChain (sampleWorld "/items" "") rfl i hi hnil

/-- C9: for a request that is not skipped, with `start` the clock reading before the
downstream chain and `end` the reading after it, the snapshot has `TimeStamp = end` and
`Latency = end.Sub(start)`; for readings of the clock this is `end - start`, and whenever
`end ≥ start` the latency is not negative. -/
theorem snapshot_timestamp_latency (config : LoggerConfig) (next : World → World) (w : World)
    (h : w.ctx.Request.URL.Path ∉ config.SkipPaths) :
    (snapshots (LoggerWithConfig config next w).trace).map (fun p => (p.TimeStamp, p.Latency)) =
      [((next w).now, (next w).now.Sub w.now)] ∧
    (w.now.isReading → (next w).now.isReading →
      (snapshots (LoggerWithConfig config next w).trace).map (fun p => (p.TimeStamp, p.Latency)) =
        [((next w).now, (next w).now.ns - w.now.ns)]) ∧
    (w.now.ns ≤ (next w).now.ns →
      ∀ p ∈ snapshots (LoggerWithConfig config next w).trace, 0 ≤ p.Latency) := by
  rw [LoggerWithConfig_logged config next w h _ rfl]
  simp only [snapshots, invocations_logged, List.map_cons, List.map_nil, List.mem_singleton]
  refine ⟨trivial, ?_, ?_⟩
  · intro hs he
    rw [Time.Sub, subMono_of_readings _ _ he.1 he.2 hs.1 hs.2]
  · intro hle p hp
    subst hp
    exact subMono_nonneg _ _ hle

theorem snapshot_timestamp_latency_witness :
    (sampleWorld "/items" "").ctx.Request.URL.Path ∉
      ({ Logger := some 1 } : LoggerConfig).SkipPaths ∧
    (sampleWorld "/items" "").now.isReading ∧
    (sampleChain (sampleWorld "/items" "")).now.isReading ∧
    (snapshots (LoggerWithConfig { Logger := some 1 } sampleChain
      (sampleWorld "/items" "")).trace).map (fun p => (p.TimeStamp, p.Latency)) =
        [(({ ns := 35 } : Time), (25 : Int))] :=
  ⟨by decide, by decide, by decide,
    (snapshot_timestamp_latency { Logger := some 1 } sampleChain (sampleWorld "/items" "")
      (by decide)).2.1 (by decide) (by decide)⟩

end GinLogrus
